import Mathlib

set_option autoImplicit false

/-! Shallow embedding of the visible fragment of the ign-gazebo repository:
the GUI event classes of src/include/ignition/gazebo/gui/GuiEvents.hh, and the
component registry and serializer contract exercised by
src/include/ignition/gazebo/components/SphericalCoordinates.hh. -/

/-- Entity identifier (ignition::gazebo::Entity), an unsigned integer id. -/
abbrev Entity := Nat

/-- Qt constant QEvent::User, the first user-defined event type number. -/
def QEventUser : Nat := 1000

/-- EntitiesSelected event (GuiEvents.hh lines 49 to 84): carries the selected
entities and whether the selection was generated directly by the user. -/
structure EntitiesSelected where
  eventType : Nat
  entities : List Entity
  fromUser : Bool
  deriving DecidableEq

/-- Unique type for the EntitiesSelected event (GuiEvents.hh line 77). -/
def EntitiesSelected.kType : Nat := QEventUser + 1

/-- The EntitiesSelected constructor (GuiEvents.hh lines 55 to 60): initializes
QEvent with kType and stores both arguments. -/
def EntitiesSelected.make (es : List Entity) (fu : Bool) : EntitiesSelected :=
  ⟨EntitiesSelected.kType, es, fu⟩

/-- The EntitiesSelected constructor call with the second argument omitted;
the declaration defaults the flag to false (GuiEvents.hh line 57). -/
def EntitiesSelected.makeDefault (es : List Entity) : EntitiesSelected :=
  EntitiesSelected.make es false

/-- Accessor Data (GuiEvents.hh lines 64 to 67): the stored entities. -/
def EntitiesSelected.Data (e : EntitiesSelected) : List Entity :=
  e.entities

/-- Accessor FromUser (GuiEvents.hh lines 71 to 74): the stored flag. -/
def EntitiesSelected.FromUser (e : EntitiesSelected) : Bool :=
  e.fromUser

/-- DeselectAllEntities event (GuiEvents.hh lines 87 to 109). -/
structure DeselectAllEntities where
  eventType : Nat
  fromUser : Bool
  deriving DecidableEq

/-- Unique type for the DeselectAllEntities event (GuiEvents.hh line 105). -/
def DeselectAllEntities.kType : Nat := QEventUser + 2

/-- The DeselectAllEntities constructor (GuiEvents.hh lines 92 to 95). -/
def DeselectAllEntities.make (fu : Bool) : DeselectAllEntities :=
  ⟨DeselectAllEntities.kType, fu⟩

/-- The DeselectAllEntities constructor call with its argument omitted; the
declaration defaults the flag to false (GuiEvents.hh line 92). -/
def DeselectAllEntities.makeDefault : DeselectAllEntities :=
  DeselectAllEntities.make false

/-- Accessor FromUser (GuiEvents.hh lines 99 to 102). -/
def DeselectAllEntities.FromUser (e : DeselectAllEntities) : Bool :=
  e.fromUser

/-- Unique type for the GuiNewRemovedEntities event (GuiEvents.hh line 129). -/
def GuiNewRemovedEntities.kType : Nat := QEventUser + 3

/-- Unique type for the NewRemovedEntities event (GuiEvents.hh line 155). -/
def NewRemovedEntities.kType : Nat := QEventUser + 4

/-- Unique type for the TransformControlModeActive event (GuiEvents.hh
line 174). -/
def TransformControlModeActive.kType : Nat := QEventUser + 6

/-- Unique type for the ModelEditorAddEntity event (GuiEvents.hh line 210). -/
def ModelEditorAddEntity.kType : Nat := QEventUser + 7

/-- Unique type for the VisualPlugin event (GuiEvents.hh line 232). -/
def VisualPlugin.kType : Nat := QEventUser + 8

/-- The seven kType constants declared in GuiEvents.hh, in declaration order. -/
def guiEventTypes : List Nat :=
  [EntitiesSelected.kType, DeselectAllEntities.kType, GuiNewRemovedEntities.kType,
   NewRemovedEntities.kType, TransformControlModeActive.kType,
   ModelEditorAddEntity.kType, VisualPlugin.kType]

/-- C9: every GUI event class declares a distinct QEvent type constant: the
seven kType values take QEvent User offsets 1, 2, 3, 4, 6, 7 and 8, they are
pairwise different, and offset 5 is used by none of them. -/
theorem guiEventTypesDistinct :
    EntitiesSelected.kType = QEventUser + 1 ∧
    DeselectAllEntities.kType = QEventUser + 2 ∧
    GuiNewRemovedEntities.kType = QEventUser + 3 ∧
    NewRemovedEntities.kType = QEventUser + 4 ∧
    TransformControlModeActive.kType = QEventUser + 6 ∧
    ModelEditorAddEntity.kType = QEventUser + 7 ∧
    VisualPlugin.kType = QEventUser + 8 ∧
    guiEventTypes.Pairwise (fun a b => a ≠ b) ∧
    QEventUser + 5 ∉ guiEventTypes := by
  decide

/-- C10: an EntitiesSelected event carries its construction arguments
faithfully: Data returns the entity vector unchanged and FromUser the flag;
with the flag argument omitted FromUser is false, and likewise for a
DeselectAllEntities constructed without an argument. -/
theorem entitiesSelectedFaithful (v : List Entity) (b : Bool) :
    (EntitiesSelected.make v b).Data = v ∧
    (EntitiesSelected.make v b).FromUser = b ∧
    (EntitiesSelected.makeDefault v).FromUser = false ∧
    DeselectAllEntities.makeDefault.FromUser = false :=
  ⟨rfl, rfl, rfl, rfl⟩

/-- Modelled from the spec: the error taxonomy of its section 7 (Factory.hh,
Component.hh and Serialization.hh are not under src/): a duplicate load-time
registration, a failed lookup, and a failed message conversion. -/
inductive FactoryError where
  | duplicateRegistrationError
  | notFoundError
  | serializationError
  deriving DecidableEq

/-- Modelled from the spec: the geodetic-origin Payload wrapped by the
SphericalCoordinates component (math::SphericalCoordinates is not under src/).
The spec names latitude, longitude and elevation accessor fields; they are held
here as exact rationals. -/
structure SphericalCoordinatesPayload where
  latitude : Rat
  longitude : Rat
  elevation : Rat
  deriving DecidableEq

/-- Modelled from the spec: the transport message shape
(msgs::SphericalCoordinates is not under src/). Each field may be absent, so
that a malformed message can miss a required field. -/
structure SphericalCoordinatesMsg where
  latitude : Option Rat
  longitude : Option Rat
  elevation : Option Rat
  deriving DecidableEq

/-- Modelled from the spec: a Serializer strategy converts a Payload to and
from a transport Message (spec section 4.2). -/
structure Serializer (P M : Type) where
  ToMessage : P → M
  FromMessage : M → Except FactoryError P

/-- Modelled from the spec: the valid geodetic domain (coordinates outside it
are malformed): latitude within [-90, 90] and longitude within [-180, 180]. -/
def validPayload (p : SphericalCoordinatesPayload) : Prop :=
  -90 ≤ p.latitude ∧ p.latitude ≤ 90 ∧ -180 ≤ p.longitude ∧ p.longitude ≤ 180

instance validPayload.dec (p : SphericalCoordinatesPayload) :
    Decidable (validPayload p) := by
  unfold validPayload
  exact inferInstance

/-- Modelled from the spec: ToMessage is a total pure conversion filling every
message field from the Payload. -/
def sphericalToMessage (p : SphericalCoordinatesPayload) :
    SphericalCoordinatesMsg :=
  ⟨some p.latitude, some p.longitude, some p.elevation⟩

/-- Modelled from the spec: FromMessage fails with SerializationError when a
required field is missing or the coordinates are outside the valid geodetic
domain; otherwise it rebuilds the Payload from the message fields. -/
def sphericalFromMessage (m : SphericalCoordinatesMsg) :
    Except FactoryError SphericalCoordinatesPayload :=
  match m.latitude, m.longitude, m.elevation with
  | some la, some lo, some el =>
      if validPayload ⟨la, lo, el⟩ then Except.ok ⟨la, lo, el⟩
      else Except.error FactoryError.serializationError
  | _, _, _ => Except.error FactoryError.serializationError

/-- The bound serializer of SphericalCoordinates.hh lines 35 to 37; the
ComponentToMsgSerializer template it instantiates is not under src/ and is
modelled from the spec by the two conversions above. -/
def SphericalCoordinatesSerializer :
    Serializer SphericalCoordinatesPayload SphericalCoordinatesMsg :=
  ⟨sphericalToMessage, sphericalFromMessage⟩

/-- Modelled from the spec: the Typed Component Wrapper (Component.hh is not
under src/) binds a Payload type and a uniqueness Tag type and stores the
Payload by value. -/
structure Component (P : Type) (Tag : Type) where
  data : P
  deriving DecidableEq

/-- Modelled from the spec: read access to the stored Payload. -/
def Component.Data {P Tag : Type} (c : Component P Tag) : P :=
  c.data

/-- Modelled from the spec: replace the stored Payload. -/
def Component.SetData {P Tag : Type} (_c : Component P Tag) (p : P) :
    Component P Tag :=
  ⟨p⟩

/-- Modelled from the spec: the equality operator of the wrapper compares the
stored Payloads. -/
def Component.equal {P Tag : Type} [DecidableEq P] (a b : Component P Tag) :
    Bool :=
  decide (a.data = b.data)

/-- Modelled from the spec: Serialize delegates entirely to the bound
serializer strategy. -/
def Component.Serialize {P Tag M : Type} (s : Serializer P M)
    (c : Component P Tag) : M :=
  s.ToMessage c.data

/-- Modelled from the spec: Deserialize delegates to the bound serializer; on
success the decoded Payload replaces the stored one, and a failure is surfaced
to the caller with the stored Payload left unchanged. -/
def Component.Deserialize {P Tag M : Type} (s : Serializer P M)
    (c : Component P Tag) (m : M) : Component P Tag × Option FactoryError :=
  match s.FromMessage m with
  | Except.ok p => (⟨p⟩, none)
  | Except.error e => (c, some e)

/-- The uniqueness tag class SphericalCoordinatesTag named in
SphericalCoordinates.hh line 44. -/
inductive SphericalCoordinatesTag where
  | mk
  deriving DecidableEq

/-- The component alias of SphericalCoordinates.hh lines 43 to 45: the wrapper
instantiated at the geodetic payload, its tag, and its serializer. -/
abbrev SphericalCoordinates : Type :=
  Component SphericalCoordinatesPayload SphericalCoordinatesTag

/-- Modelled from the spec: one Registry Entry (Factory.hh is not under src/):
a unique string name, the component's compile-time type identity, and a factory
function producing a default-constructed instance. -/
structure RegistryEntry (α : Type) where
  name : String
  typeId : Nat
  make : Unit → α

/-- Modelled from the spec: the process-wide Registry, a mapping from names to
Registry Entries, here an association list in registration order. -/
abbrev Registry (α : Type) : Type := List (RegistryEntry α)

/-- Modelled from the spec: the type-erased handle a Construct call produces:
a default-valued instance together with its compile-time type identity. -/
structure ErasedHandle (α : Type) where
  typeId : Nat
  value : α
  deriving DecidableEq

/-- Modelled from the spec: Register installs one entry; it fails fatally with
DuplicateRegistrationError when the name is already registered with a different
type identity and is a no-op when the identical pair is registered again. -/
def Register {α : Type} (reg : Registry α) (e : RegistryEntry α) :
    Except FactoryError (Registry α) :=
  match reg.find? (fun x => x.name == e.name) with
  | some prior =>
      if prior.typeId == e.typeId then Except.ok reg
      else Except.error FactoryError.duplicateRegistrationError
  | none => Except.ok (reg ++ [e])

/-- Modelled from the spec: HasType is an existence check without
construction. -/
def HasType {α : Type} (reg : Registry α) (n : String) : Bool :=
  reg.any (fun x => x.name == n)

/-- Modelled from the spec: Construct produces a default-valued type-erased
instance of the named component, or NotFoundError for an unknown name. -/
def Construct {α : Type} (reg : Registry α) (n : String) :
    Except FactoryError (ErasedHandle α) :=
  match reg.find? (fun x => x.name == n) with
  | some e => Except.ok ⟨e.typeId, e.make ()⟩
  | none => Except.error FactoryError.notFoundError

/-- Modelled from the spec: NameOf is the reverse lookup from a type identity
to the registered name, or NotFoundError for an unregistered identity. -/
def NameOf {α : Type} (reg : Registry α) (tid : Nat) :
    Except FactoryError String :=
  match reg.find? (fun x => x.typeId == tid) with
  | some e => Except.ok e.name
  | none => Except.error FactoryError.notFoundError

/-- Modelled from the spec: the registry invariant that registration is a
bijection between names and type identities: both are pairwise distinct. -/
def WellFormed {α : Type} (reg : Registry α) : Prop :=
  reg.Pairwise (fun a b => a.name ≠ b.name ∧ a.typeId ≠ b.typeId)

/-- The registration declaration of SphericalCoordinates.hh lines 46 to 47:
the component is installed under the name
ign_gazebo_components.SphericalCoordinates with a default-origin factory. The
numeric type identity is arbitrary; registration only requires it to be
distinct per component type. -/
def sphericalCoordinatesEntry : RegistryEntry SphericalCoordinates :=
  ⟨"ign_gazebo_components.SphericalCoordinates", 1, fun _ => ⟨⟨0, 0, 0⟩⟩⟩

/-- The process-wide registry once load-time registration has run: it holds
the single registration declaration visible under src/. -/
def loadedRegistry : Registry SphericalCoordinates :=
  [sphericalCoordinatesEntry]

theorem find?_name_eq_none_of_hasType_false {α : Type} (reg : Registry α)
    (n : String) (h : HasType reg n = false) :
    reg.find? (fun x => x.name == n) = none := by
  refine List.find?_eq_none.2 ?_
  intro x hx hpx
  have hall := List.any_eq_false.1 h
  have hnot : ¬ (x.name == n) = true := by simpa using hall x hx
  exact hnot hpx

theorem find?_name_isSome_of_hasType_true {α : Type} (reg : Registry α)
    (n : String) (h : HasType reg n = true) :
    (reg.find? (fun x => x.name == n)).isSome = true := by
  obtain ⟨x, hx, hpx⟩ := List.any_eq_true.1 h
  exact List.find?_isSome.2 ⟨x, hx, hpx⟩

theorem construct_isOk_eq_hasType {α : Type} (reg : Registry α) (n : String) :
    (Construct reg n).isOk = HasType reg n := by
  unfold Construct
  cases hfind : reg.find? (fun x => x.name == n) with
  | none =>
      cases hhas : HasType reg n with
      | false => simp [Except.isOk, Except.toBool]
      | true =>
          have := find?_name_isSome_of_hasType_true reg n hhas
          rw [hfind] at this
          simp at this
  | some e =>
      cases hhas : HasType reg n with
      | false =>
          have := find?_name_eq_none_of_hasType_false reg n hhas
          rw [hfind] at this
          simp at this
      | true => simp [Except.isOk, Except.toBool]

theorem find?_name_of_wellFormed {α : Type} (reg : Registry α)
    (e : RegistryEntry α) (hwf : WellFormed reg) (hmem : e ∈ reg) :
    reg.find? (fun x => x.name == e.name) = some e := by
  induction reg with
  | nil => cases hmem
  | cons hd tl ih =>
      rcases List.mem_cons.1 hmem with heq | htl
      · subst heq
        simp [List.find?]
      · have hne : hd.name ≠ e.name :=
          ((List.pairwise_cons.1 hwf).1 e htl).1
        have : (hd.name == e.name) = false := by
          simpa using hne
        simp only [List.find?, this]
        exact ih (List.pairwise_cons.1 hwf).2 htl

theorem find?_typeId_of_wellFormed {α : Type} (reg : Registry α)
    (e : RegistryEntry α) (hwf : WellFormed reg) (hmem : e ∈ reg) :
    reg.find? (fun x => x.typeId == e.typeId) = some e := by
  induction reg with
  | nil => cases hmem
  | cons hd tl ih =>
      rcases List.mem_cons.1 hmem with heq | htl
      · subst heq
        simp [List.find?]
      · have hne : hd.typeId ≠ e.typeId :=
          ((List.pairwise_cons.1 hwf).1 e htl).2
        have : (hd.typeId == e.typeId) = false := by
          simpa using hne
        simp only [List.find?, this]
        exact ih (List.pairwise_cons.1 hwf).2 htl

/-- C1: round-trip law for the bound serializer of the SphericalCoordinates
component: for every valid Payload p, all of whose fields the message carries
exactly, FromMessage applied to ToMessage of p returns p itself. -/
theorem serializerRoundTrip (p : SphericalCoordinatesPayload)
    (h : validPayload p) :
    SphericalCoordinatesSerializer.FromMessage
      (SphericalCoordinatesSerializer.ToMessage p) = Except.ok p := by
  show sphericalFromMessage (sphericalToMessage p) = Except.ok p
  have heta : (⟨p.latitude, p.longitude, p.elevation⟩ :
      SphericalCoordinatesPayload) = p := rfl
  simp [sphericalToMessage, sphericalFromMessage, heta, h]

/-- Witness for C1 at the valid geodetic origin 37, -122, 0. -/
theorem serializerRoundTrip_witness :
    validPayload ⟨37, -122, 0⟩ ∧
    SphericalCoordinatesSerializer.FromMessage
      (SphericalCoordinatesSerializer.ToMessage ⟨37, -122, 0⟩) =
      Except.ok ⟨37, -122, 0⟩ :=
  ⟨by decide, serializerRoundTrip ⟨37, -122, 0⟩ (by decide)⟩

/-- C4: Deserialize given a message missing a required field returns
SerializationError and leaves the component's existing Payload exactly as it
was; no partially constructed Payload is produced. -/
theorem deserializeMalformedPreserves (c : SphericalCoordinates)
    (m : SphericalCoordinatesMsg)
    (h : m.latitude = none ∨ m.longitude = none ∨ m.elevation = none) :
    Component.Deserialize SphericalCoordinatesSerializer c m =
      (c, some FactoryError.serializationError) := by
  obtain ⟨mla, mlo, mel⟩ := m
  have hfail : sphericalFromMessage ⟨mla, mlo, mel⟩ =
      Except.error FactoryError.serializationError := by
    cases mla <;> cases mlo <;> cases mel <;>
      simp_all [sphericalFromMessage]
  have hfail2 : SphericalCoordinatesSerializer.FromMessage ⟨mla, mlo, mel⟩ =
      Except.error FactoryError.serializationError := hfail
  unfold Component.Deserialize
  rw [hfail2]

/-- Witness for C4: a message with no latitude field leaves the stored value
1, 2, 3 untouched and surfaces SerializationError. -/
theorem deserializeMalformedPreserves_witness :
    ((⟨none, some 1, some 2⟩ : SphericalCoordinatesMsg).latitude = none ∨
      (⟨none, some 1, some 2⟩ : SphericalCoordinatesMsg).longitude = none ∨
      (⟨none, some 1, some 2⟩ : SphericalCoordinatesMsg).elevation = none) ∧
    Component.Deserialize SphericalCoordinatesSerializer
      (⟨⟨1, 2, 3⟩⟩ : SphericalCoordinates) ⟨none, some 1, some 2⟩ =
      ((⟨⟨1, 2, 3⟩⟩ : SphericalCoordinates),
        some FactoryError.serializationError) :=
  ⟨Or.inl rfl,
   deserializeMalformedPreserves ⟨⟨1, 2, 3⟩⟩ ⟨none, some 1, some 2⟩
     (Or.inl rfl)⟩

/-- C6: two Typed Component Wrapper instances of one component type compare
equal exactly when their stored Payloads compare equal. -/
theorem componentEqualIffPayload {P Tag : Type} [DecidableEq P]
    (a b : Component P Tag) :
    Component.equal a b = true ↔ a.Data = b.Data := by
  simp [Component.equal, Component.Data]

/-- Witness for C6 at the SphericalCoordinates component type: equal payloads
give equal instances and differing payloads give unequal instances. -/
theorem componentEqualIffPayload_witness :
    (Component.equal (⟨⟨1, 2, 3⟩⟩ : SphericalCoordinates) ⟨⟨1, 2, 3⟩⟩ = true ↔
      (⟨⟨1, 2, 3⟩⟩ : SphericalCoordinates).Data =
        (⟨⟨1, 2, 3⟩⟩ : SphericalCoordinates).Data) ∧
    (Component.equal (⟨⟨1, 2, 3⟩⟩ : SphericalCoordinates) ⟨⟨4, 2, 3⟩⟩ = true ↔
      (⟨⟨1, 2, 3⟩⟩ : SphericalCoordinates).Data =
        (⟨⟨4, 2, 3⟩⟩ : SphericalCoordinates).Data) :=
  ⟨componentEqualIffPayload (⟨⟨1, 2, 3⟩⟩ : SphericalCoordinates) ⟨⟨1, 2, 3⟩⟩,
   componentEqualIffPayload (⟨⟨1, 2, 3⟩⟩ : SphericalCoordinates) ⟨⟨4, 2, 3⟩⟩⟩

/-- C2: registering a fresh name succeeds; registering the same name again
under a different type identity fails with DuplicateRegistrationError, while
repeating the identical (name, type) registration is an idempotent no-op that
leaves the registry exactly as after the first call. -/
theorem registerDuplicateIdempotent {α : Type} (reg : Registry α) (X : String)
    (eA eB : RegistryEntry α) (hA : eA.name = X) (hB : eB.name = X)
    (hfresh : HasType reg X = false) (hne : eA.typeId ≠ eB.typeId) :
    Register reg eA = Except.ok (reg ++ [eA]) ∧
    Register (reg ++ [eA]) eB =
      Except.error FactoryError.duplicateRegistrationError ∧
    Register (reg ++ [eA]) eA = Except.ok (reg ++ [eA]) := by
  have hnoneA : reg.find? (fun x => x.name == eA.name) = none := by
    rw [hA]
    exact find?_name_eq_none_of_hasType_false reg X hfresh
  have hnoneB : reg.find? (fun x => x.name == eB.name) = none := by
    rw [hB]
    exact find?_name_eq_none_of_hasType_false reg X hfresh
  have hnames : (eA.name == eB.name) = true := by
    simp [hA, hB]
  have htid : (eA.typeId == eB.typeId) = false := by
    simpa using hne
  refine ⟨?_, ?_, ?_⟩
  · unfold Register
    rw [hnoneA]
  · unfold Register
    rw [List.find?_append, hnoneB]
    simp [List.find?, hnames, htid]
  · unfold Register
    rw [List.find?_append, hnoneA]
    simp [List.find?]

/-- Witness for C2 over an empty registry with name X and type identities 1
and 2. -/
theorem registerDuplicateIdempotent_witness :
    HasType ([] : Registry Nat) "X" = false ∧
    Register ([] : Registry Nat) ⟨"X", 1, fun _ => 0⟩ =
      Except.ok [⟨"X", 1, fun _ => 0⟩] ∧
    Register [(⟨"X", 1, fun _ => 0⟩ : RegistryEntry Nat)] ⟨"X", 2, fun _ => 0⟩ =
      Except.error FactoryError.duplicateRegistrationError ∧
    Register [(⟨"X", 1, fun _ => 0⟩ : RegistryEntry Nat)] ⟨"X", 1, fun _ => 0⟩ =
      Except.ok [⟨"X", 1, fun _ => 0⟩] := by
  have H := registerDuplicateIdempotent ([] : Registry Nat) "X"
    ⟨"X", 1, fun _ => 0⟩ ⟨"X", 2, fun _ => 0⟩ rfl rfl rfl (by decide)
  exact ⟨rfl, H.1, H.2.1, H.2.2⟩

/-- C3: Construct of an unregistered name returns NotFoundError and never a
default instance; Construct succeeds exactly when HasType holds. -/
theorem constructUnknownNotFound {α : Type} (reg : Registry α) (n : String) :
    (Construct reg n).isOk = HasType reg n ∧
    (HasType reg n = false →
      Construct reg n = Except.error FactoryError.notFoundError) := by
  refine ⟨construct_isOk_eq_hasType reg n, fun h => ?_⟩
  unfold Construct
  rw [find?_name_eq_none_of_hasType_false reg n h]

/-- Witness for C3 on the loaded registry with an unknown name. -/
theorem constructUnknownNotFound_witness :
    HasType loadedRegistry "unknown-name" = false ∧
    Construct loadedRegistry "unknown-name" =
      Except.error FactoryError.notFoundError :=
  ⟨rfl, (constructUnknownNotFound loadedRegistry "unknown-name").2 rfl⟩

/-- C5: in a well-formed registry, NameOf applied to the type identity of the
instance Construct produces for a registered name returns that very name, and
NameOf of an unregistered type identity returns NotFoundError. -/
theorem nameOfBijection {α : Type} (reg : Registry α) (e : RegistryEntry α)
    (hwf : WellFormed reg) (hmem : e ∈ reg) :
    (∀ h, Construct reg e.name = Except.ok h →
      NameOf reg h.typeId = Except.ok e.name) ∧
    (∀ tid, (∀ x ∈ reg, x.typeId ≠ tid) →
      NameOf reg tid = Except.error FactoryError.notFoundError) := by
  constructor
  · intro h hc
    unfold Construct at hc
    rw [find?_name_of_wellFormed reg e hwf hmem] at hc
    simp only [] at hc
    have hh : h = ⟨e.typeId, e.make ()⟩ := by
      cases hc
      rfl
    subst hh
    unfold NameOf
    rw [find?_typeId_of_wellFormed reg e hwf hmem]
  · intro tid htid
    unfold NameOf
    have hnone : reg.find? (fun x => x.typeId == tid) = none :=
      List.find?_eq_none.2 (fun x hx => by simpa using htid x hx)
    rw [hnone]

/-- Witness for C5 on the loaded registry: the registered type identity maps
back to the registered name, and identity 2 is unknown. -/
theorem nameOfBijection_witness :
    WellFormed loadedRegistry ∧
    sphericalCoordinatesEntry ∈ loadedRegistry ∧
    NameOf loadedRegistry 1 =
      Except.ok "ign_gazebo_components.SphericalCoordinates" ∧
    NameOf loadedRegistry 2 = Except.error FactoryError.notFoundError := by
  have hwf : WellFormed loadedRegistry := by
    simp [WellFormed, loadedRegistry]
  have hmem : sphericalCoordinatesEntry ∈ loadedRegistry := by
    simp [loadedRegistry]
  have H := nameOfBijection loadedRegistry sphericalCoordinatesEntry hwf hmem
  refine ⟨hwf, hmem, H.1 ⟨1, ⟨⟨0, 0, 0⟩⟩⟩ rfl, H.2 2 ?_⟩
  intro x hx
  simp only [loadedRegistry, List.mem_singleton] at hx
  subst hx
  decide

/-- C8: the registry is append-only: a successful Register call preserves
every existing entry, and the lookups observe every entry that was installed,
HasType and Construct included. -/
theorem registryAppendOnly {α : Type} (reg reg₂ : Registry α)
    (e e₂ : RegistryEntry α) (hmem : e ∈ reg)
    (hok : Register reg e₂ = Except.ok reg₂) :
    e ∈ reg₂ ∧ HasType reg₂ e.name = true ∧
    (Construct reg₂ e.name).isOk = true := by
  have hmem2 : e ∈ reg₂ := by
    unfold Register at hok
    split at hok
    · split at hok
      · injection hok with h
        subst h
        exact hmem
      · cases hok
    · injection hok with h
      subst h
      exact List.mem_append_left _ hmem
  have hhas : HasType reg₂ e.name = true :=
    List.any_eq_true.2 ⟨e, hmem2, by simp⟩
  exact ⟨hmem2, hhas, by rw [construct_isOk_eq_hasType]; exact hhas⟩

/-- A later registration of a second, differently named component, used to
exercise the append-only behaviour of the registry. -/
def otherEntry : RegistryEntry SphericalCoordinates :=
  ⟨"other", 2, fun _ => ⟨⟨0, 0, 0⟩⟩⟩

/-- Witness for C8: registering a second component keeps the load-time
SphericalCoordinates registration visible to every lookup. -/
theorem registryAppendOnly_witness :
    sphericalCoordinatesEntry ∈ loadedRegistry ∧
    Register loadedRegistry otherEntry =
      Except.ok (loadedRegistry ++ [otherEntry]) ∧
    sphericalCoordinatesEntry ∈ loadedRegistry ++ [otherEntry] ∧
    HasType (loadedRegistry ++ [otherEntry])
      sphericalCoordinatesEntry.name = true ∧
    (Construct (loadedRegistry ++ [otherEntry])
      sphericalCoordinatesEntry.name).isOk = true := by
  have hmem : sphericalCoordinatesEntry ∈ loadedRegistry := by
    simp [loadedRegistry]
  have hreg : Register loadedRegistry otherEntry =
      Except.ok (loadedRegistry ++ [otherEntry]) := rfl
  have H := registryAppendOnly loadedRegistry (loadedRegistry ++ [otherEntry])
    sphericalCoordinatesEntry otherEntry hmem hreg
  exact ⟨hmem, hreg, H.1, H.2.1, H.2.2⟩

/-- C7 counterexample: the registration declaration of SphericalCoordinates.hh
lines 46 to 47 installs the component under the name
ign_gazebo_components.SphericalCoordinates, not under the bare name
SphericalCoordinates, so Construct of the bare name returns NotFoundError
instead of a default-origin instance. -/
theorem sphericalShortNameNotRegistered :
    HasType loadedRegistry "SphericalCoordinates" = false ∧
    Construct loadedRegistry "SphericalCoordinates" =
      Except.error FactoryError.notFoundError :=
  ⟨rfl, rfl⟩

/-- C7 amended: the component wrapping the geodetic-origin payload is
registered under the name ign_gazebo_components.SphericalCoordinates;
Construct of that full name yields a default-origin instance; Deserialize of a
message carrying latitude 37.4, longitude -122.1 and elevation 0 yields a
Payload whose accessor fields equal those values; and Serialize of that
Payload reproduces the same message fields. -/
theorem sphericalScenarioAmended :
    HasType loadedRegistry "ign_gazebo_components.SphericalCoordinates" = true ∧
    Construct loadedRegistry "ign_gazebo_components.SphericalCoordinates" =
      Except.ok ⟨1, ⟨⟨0, 0, 0⟩⟩⟩ ∧
    Component.Deserialize SphericalCoordinatesSerializer
      (⟨⟨0, 0, 0⟩⟩ : SphericalCoordinates) ⟨some 37.4, some (-122.1), some 0⟩ =
      ((⟨⟨37.4, -122.1, 0⟩⟩ : SphericalCoordinates), none) ∧
    Component.Serialize SphericalCoordinatesSerializer
      (⟨⟨37.4, -122.1, 0⟩⟩ : SphericalCoordinates) =
      ⟨some 37.4, some (-122.1), some 0⟩ := by
  have hv : validPayload ⟨37.4, -122.1, 0⟩ := by
    norm_num [validPayload]
  have hfrom : SphericalCoordinatesSerializer.FromMessage
      ⟨some 37.4, some (-122.1), some 0⟩ =
      Except.ok ⟨37.4, -122.1, 0⟩ := by
    show sphericalFromMessage ⟨some 37.4, some (-122.1), some 0⟩ = _
    simp [sphericalFromMessage, hv]
  refine ⟨rfl, rfl, ?_, rfl⟩
  unfold Component.Deserialize
  rw [hfrom]
